import Mathlib

/-!
Verification of the eRust Windows fallback synchronization primitives
(src/libstd/sys/windows/{condvar,mutex,rwlock}.rs): a shallow embedding of
the mutex / rwlock wrappers over a lazily allocated reentrant lock, and of
the condition-variable state machine, together with theorems about the
spec claims.
-/

set_option maxRecDepth 4000

/-! ### Constants from condvar.rs (lines 8-12) and the host interface.

The state word is a usize; we model the 64-bit target (the 32-bit case is
identical with 2^32 in place of 2^64, since both mode bits sit below bit 32). -/

def USIZE : Nat := 2 ^ 64

def WAKEUP_MODE_NONE : Nat := 0

def WAKEUP_MODE_ONE : Nat := 0x40000000

def WAKEUP_MODE_ALL : Nat := 0x80000000

def WAKEUP_MODE_MASK : Nat := WAKEUP_MODE_ONE ||| WAKEUP_MODE_ALL

/-- `!WAKEUP_MODE_MASK` at usize width. -/
def SLEEPERS_COUNT_MASK : Nat := (USIZE - 1) ^^^ WAKEUP_MODE_MASK

/-- Windows INFINITE sentinel for timeouts. -/
def INFINITE : Nat := 0xFFFFFFFF

/-! ### Durations and the duration-to-timeout conversion.

`Duration` mirrors Rust `std::time::Duration` (seconds and nanoseconds). -/

structure Duration where
  secs : Nat
  nanos : Nat
deriving DecidableEq

def Duration.from_secs (s : Nat) : Duration := ⟨s, 0⟩

/-- Modelled from the spec: the pure conversion
`timeoutMillis(Duration) -> integer-or-infinite` (`super::dur2timeout` lives in
sys/windows/mod.rs, which is not part of this repository snapshot). The spec
only requires a pure conversion to the host timeout with an infinite
sentinel; we convert to milliseconds and saturate to `INFINITE`. -/
def dur2timeout (dur : Duration) : Nat :=
  let ms := dur.secs * 1000 + dur.nanos / 1000000
  if ms < INFINITE then ms else INFINITE

/-! ### Condvar: state and the shared wakeup algorithm (condvar.rs lines 105-137).

The OS objects owned by a `Condvar` are modelled by their abstract state:
the value of the state word `sleepersCountAndWakeupMode`, the count of the
control-token semaphore `sleepWakeupSemaphore` (created with initial and
maximum count 1), and the signaled flags of the auto-reset `wakeOneEvent`
and manual-reset `wakeAllEvent`. -/

structure CondvarState where
  sleepersCountAndWakeupMode : Nat
  semCount : Nat
  wakeOneSet : Bool
  wakeAllSet : Bool
deriving DecidableEq

/-- Which of the two events `wakeup` was handed (`notify_one` passes the
auto-reset wake-one event, `notify_all` the manual-reset wake-all event). -/
inductive CvEvent
  | one
  | all
deriving DecidableEq

/-- Result of one `wakeup` call: the final state, whether `SetEvent` was
called on the handed event, and whether the control token (semaphore) was
released before returning. -/
structure WakeupResult where
  state : CondvarState
  eventSignaled : Bool
  tokenReleased : Bool
deriving DecidableEq

/-- `Condvar::wakeup` (condvar.rs lines 123-137), started at the point where
`WaitForSingleObject` on the control-token semaphore has been granted (the
call blocks until the count is positive, then decrements it). -/
def Condvar.wakeup (wakeupMode : Nat) (wakeEvent : CvEvent) (s : CondvarState) : WakeupResult :=
  -- line 124: WaitForSingleObject(sleepWakeupSemaphore, INFINITE)
  let s := { s with semCount := s.semCount - 1 }
  -- line 126: fetch_add returns the prior word
  let wcwm := s.sleepersCountAndWakeupMode
  let s := { s with sleepersCountAndWakeupMode := (s.sleepersCountAndWakeupMode + wakeupMode) % USIZE }
  -- line 127
  let sleepersCount := wcwm &&& SLEEPERS_COUNT_MASK
  if sleepersCount > 0 then
    -- line 129: SetEvent(wakeEvent); the control token is not released
    let s := match wakeEvent with
      | .one => { s with wakeOneSet := true }
      | .all => { s with wakeAllSet := true }
    { state := s, eventSignaled := true, tokenReleased := false }
  else
    -- lines 132-133: store WAKEUP_MODE_NONE, then ReleaseSemaphore
    let s := { s with sleepersCountAndWakeupMode := WAKEUP_MODE_NONE }
    let s := { s with semCount := s.semCount + 1 }
    { state := s, eventSignaled := false, tokenReleased := true }

/-- `Condvar::notify_one` (condvar.rs lines 105-107). -/
def Condvar.notify_one (s : CondvarState) : WakeupResult :=
  Condvar.wakeup WAKEUP_MODE_ONE .one s

/-- `Condvar::notify_all` (condvar.rs lines 109-111). -/
def Condvar.notify_all (s : CondvarState) : WakeupResult :=
  Condvar.wakeup WAKEUP_MODE_ALL .all s

/-! ### Condvar: wait_timeout (condvar.rs lines 42-103).

A single execution of `wait_timeout` interacts with state shared with other
threads at a few distinct atomic instructions.  The embedding therefore takes
as parameters the values observed at those points:

* `wordAtCheck`  - the value of the state word at the `load` on line 50
  (re-read after this thread's `fetch_add(1)`, under the control token);
* `waitResult`   - what `WaitForMultipleObjects` on line 56 reported:
  woken via the auto-reset wake-one event (`WAIT_OBJECT_0`, index 0), woken
  via the manual-reset wake-all event (`WAIT_OBJECT_0 + 1`, index 1), or
  `WAIT_TIMEOUT`;
* `wordBeforeSub` - the value of the state word just before the atomic
  subtraction on line 65.

The returned trace records what the execution did. -/

inductive WaitResult
  | wakeOne
  | wakeAll
  | timedOut
deriving DecidableEq

inductive WtOutcome
  | aborted (msg : String)
  | returned (didNotTimeOut : Bool)
deriving DecidableEq

structure WtTrace where
  /-- the external mutex was released (line 54) -/
  mutexUnlocked : Bool
  /-- amount subtracted from the state word (line 65) -/
  subtracted : Nat
  /-- the state word resulting from that subtraction (value of `wcwm`, line 65) -/
  wordAfterSub : Nat
  /-- `wcwm & WAKEUP_MODE_MASK` (line 67) -/
  wakeupMode : Nat
  /-- `wcwm & SLEEPERS_COUNT_MASK` (line 68) -/
  sleepersCount : Nat
  /-- ResetEvent(wakeOneEvent) was called (line 75) -/
  resetWakeOne : Bool
  /-- ResetEvent(wakeAllEvent) was called (line 80) -/
  resetWakeAll : Bool
  /-- the state word was stored back to WAKEUP_MODE_NONE (line 77 or 82) -/
  storedNone : Bool
  /-- the cleanup step released the control token (lines 90-93) -/
  cleanupReleasedToken : Bool
  /-- the external mutex was re-acquired before returning (line 95) -/
  mutexReacquired : Bool
  outcome : WtOutcome
deriving DecidableEq

/-- `Condvar::wait_timeout` (condvar.rs lines 46-103). -/
def Condvar.wait_timeout (wordAtCheck : Nat) (waitResult : WaitResult) (wordBeforeSub : Nat)
    (dur : Duration) : WtTrace :=
  -- lines 47-49: acquire the control token, fetch_add(1) on the state word
  -- lines 50-51: re-load the word and assert no wakeup mode is pending
  if wordAtCheck &&& WAKEUP_MODE_MASK ≠ 0 then
    { mutexUnlocked := false, subtracted := 0, wordAfterSub := 0, wakeupMode := 0,
      sleepersCount := 0, resetWakeOne := false, resetWakeAll := false, storedNone := false,
      cleanupReleasedToken := false, mutexReacquired := false,
      outcome := .aborted ("assertion failed: (wcwm & WAKEUP_MODE_MASK) == 0") }
  else
    -- lines 52-53: release the control token (registration done)
    -- line 54: mutex.unlock()
    -- lines 55-56: WaitForMultipleObjects on [wakeOneEvent, wakeAllEvent] -> waitResult
    -- lines 58-63: choose the amount to subtract
    let sub : Nat := if waitResult = .wakeOne then 1 ||| WAKEUP_MODE_ONE else 1
    -- line 65: fetch_add(-sub as usize) and subtract again to get the new value
    let wcwm : Nat := (wordBeforeSub + (USIZE - sub)) % USIZE
    -- lines 67-68
    let wakeupMode := wcwm &&& WAKEUP_MODE_MASK
    let sleepersCount := wcwm &&& SLEEPERS_COUNT_MASK
    -- lines 70-93: the cleanup decision, then lines 95-102: relock and report
    if waitResult = .wakeOne then
      { mutexUnlocked := true, subtracted := sub, wordAfterSub := wcwm,
        wakeupMode := wakeupMode, sleepersCount := sleepersCount,
        resetWakeOne := false, resetWakeAll := false, storedNone := false,
        cleanupReleasedToken := true, mutexReacquired := true,
        outcome := .returned true }
    else if waitResult = .timedOut ∧ wakeupMode = WAKEUP_MODE_ONE ∧ sleepersCount = 0 then
      { mutexUnlocked := true, subtracted := sub, wordAfterSub := wcwm,
        wakeupMode := wakeupMode, sleepersCount := sleepersCount,
        resetWakeOne := true, resetWakeAll := false, storedNone := true,
        cleanupReleasedToken := true, mutexReacquired := true,
        outcome := .returned false }
    else if wakeupMode = WAKEUP_MODE_ALL ∧ sleepersCount = 0 then
      { mutexUnlocked := true, subtracted := sub, wordAfterSub := wcwm,
        wakeupMode := wakeupMode, sleepersCount := sleepersCount,
        resetWakeOne := false, resetWakeAll := true, storedNone := true,
        cleanupReleasedToken := true, mutexReacquired := true,
        outcome := .returned (if waitResult = .timedOut then false else true) }
    else if (waitResult = .timedOut ∧ dur2timeout dur ≠ INFINITE) ∨
            (waitResult = .wakeAll ∧ wakeupMode = WAKEUP_MODE_ALL) then
      { mutexUnlocked := true, subtracted := sub, wordAfterSub := wcwm,
        wakeupMode := wakeupMode, sleepersCount := sleepersCount,
        resetWakeOne := false, resetWakeAll := false, storedNone := false,
        cleanupReleasedToken := false, mutexReacquired := true,
        outcome := .returned (if waitResult = .timedOut then false else true) }
    else
      { mutexUnlocked := true, subtracted := sub, wordAfterSub := wcwm,
        wakeupMode := wakeupMode, sleepersCount := sleepersCount,
        resetWakeOne := false, resetWakeAll := false, storedNone := false,
        cleanupReleasedToken := false, mutexReacquired := false,
        outcome := .aborted ("invalid wakeup condition") }

/-- `Condvar::wait` (condvar.rs lines 42-44): `wait_timeout` with a duration of
1000 * 365 * 86400 seconds, discarding the returned timeout flag. -/
def Condvar.wait (wordAtCheck : Nat) (waitResult : WaitResult) (wordBeforeSub : Nat) : WtTrace :=
  Condvar.wait_timeout wordAtCheck waitResult wordBeforeSub
    (Duration.from_secs (1000 * 365 * 86400))

/-! ### Mutex and RWLock (mutex.rs, rwlock.rs).

Both `Mutex` and `RWLock` consist of one atomic slot `lock` (0, or the
address of a heap-allocated `ReentrantMutex`) and one non-atomic `held`
flag.  The heap is modelled by the list `alive` of addresses of currently
allocated `ReentrantMutex` values and a counter `fresh` from which new
nonzero addresses are drawn.  Calls into the backing `ReentrantMutex`
(plain CriticalSection wrappers, mutex.rs lines 105-137) are recorded as
trace actions. -/

structure LockState where
  lock : Nat
  held : Bool
  alive : List Nat
  fresh : Nat
deriving DecidableEq

inductive ReAction
  /-- `ReentrantMutex::uninitialized()` + `init()` for the lock at this address -/
  | reInit (p : Nat)
  /-- `EnterCriticalSection` -/
  | reLock (p : Nat)
  /-- `TryEnterCriticalSection`, with its result -/
  | reTryLock (p : Nat) (ok : Bool)
  /-- `LeaveCriticalSection` -/
  | reUnlock (p : Nat)
  /-- `destroy()` + free of the lock at this address -/
  | reDestroy (p : Nat)
deriving DecidableEq

structure RemutexOut where
  re : Nat
  state : LockState
  trace : List ReAction
deriving DecidableEq

structure LockOutcome where
  state : LockState
  trace : List ReAction
  abortMsg : Option String
deriving DecidableEq

/-- `Mutex::remutex` (mutex.rs lines 78-93): lazy, compare-and-swap
publication of the backing `ReentrantMutex`. -/
def Mutex.remutex (s : LockState) : RemutexOut :=
  -- lines 79-82: load the slot; if nonzero return the published pointer
  match s.lock with
  | 0 =>
    -- lines 83-85: box ReentrantMutex::uninitialized(), init(), into_raw
    let re := s.fresh + 1
    let s1 : LockState := { s with fresh := re, alive := re :: s.alive }
    -- lines 86-92: compare_and_swap(0, re)
    match s1.lock with
    | 0 => { re := re, state := { s1 with lock := re }, trace := [.reInit re] }
    | n => { re := n, state := { s1 with alive := s1.alive.erase re },
             trace := [.reInit re, .reDestroy re] }
  | n => { re := n, state := s, trace := [] }

/-- `Mutex::flag_locked` (mutex.rs lines 95-102). -/
def Mutex.flag_locked (s : LockState) : Bool × LockState :=
  if s.held then (false, s)
  else (true, { s with held := true })

/-- `Mutex::lock` (mutex.rs lines 46-53). -/
def Mutex.lock (s : LockState) : LockOutcome :=
  let r := Mutex.remutex s
  -- line 48: (*re).lock()
  let tr := r.trace ++ [.reLock r.re]
  let fl := Mutex.flag_locked r.state
  if !fl.1 then
    -- lines 50-51: (*re).unlock(); panic
    { state := fl.2, trace := tr ++ [.reUnlock r.re],
      abortMsg := some ("cannot recursively lock a mutex") }
  else
    { state := fl.2, trace := tr, abortMsg := none }

/-- `Mutex::try_lock` (mutex.rs lines 54-64); `tryOk` is the result reported
by `TryEnterCriticalSection` on the backing lock. -/
def Mutex.try_lock (tryOk : Bool) (s : LockState) : Bool × LockOutcome :=
  let r := Mutex.remutex s
  if !tryOk then
    (false, { state := r.state, trace := r.trace ++ [.reTryLock r.re false], abortMsg := none })
  else
    let fl := Mutex.flag_locked r.state
    if fl.1 then
      (true, { state := fl.2, trace := r.trace ++ [.reTryLock r.re true], abortMsg := none })
    else
      (false, { state := fl.2, trace := r.trace ++ [.reTryLock r.re true, .reUnlock r.re],
                abortMsg := none })

/-- `Mutex::unlock` (mutex.rs lines 65-68). -/
def Mutex.unlock (s : LockState) : LockState × List ReAction :=
  let s1 := { s with held := false }
  let r := Mutex.remutex s1
  (r.state, r.trace ++ [.reUnlock r.re])

/-- `Mutex::destroy` (mutex.rs lines 69-76). -/
def Mutex.destroy (s : LockState) : LockState × List ReAction :=
  match s.lock with
  | 0 => (s, [])
  | n => ({ s with alive := s.alive.erase n }, [.reDestroy n])

/-- `RWLock::remutex` (rwlock.rs lines 67-79); same algorithm as
`Mutex::remutex`. -/
def RWLock.remutex (s : LockState) : RemutexOut :=
  match s.lock with
  | 0 =>
    let re := s.fresh + 1
    let s1 : LockState := { s with fresh := re, alive := re :: s.alive }
    match s1.lock with
    | 0 => { re := re, state := { s1 with lock := re }, trace := [.reInit re] }
    | n => { re := n, state := { s1 with alive := s1.alive.erase re },
             trace := [.reInit re, .reDestroy re] }
  | n => { re := n, state := s, trace := [] }

/-- `RWLock::flag_locked` (rwlock.rs lines 81-89). -/
def RWLock.flag_locked (s : LockState) : Bool × LockState :=
  if s.held then (false, s)
  else (true, { s with held := true })

/-- `RWLock::read` (rwlock.rs lines 21-28). -/
def RWLock.read (s : LockState) : LockOutcome :=
  let r := RWLock.remutex s
  let tr := r.trace ++ [.reLock r.re]
  let fl := RWLock.flag_locked r.state
  if !fl.1 then
    { state := fl.2, trace := tr ++ [.reUnlock r.re],
      abortMsg := some ("cannot recursively lock a mutex") }
  else
    { state := fl.2, trace := tr, abortMsg := none }

/-- `RWLock::try_read` (rwlock.rs lines 30-40). -/
def RWLock.try_read (tryOk : Bool) (s : LockState) : Bool × LockOutcome :=
  let r := RWLock.remutex s
  if !tryOk then
    (false, { state := r.state, trace := r.trace ++ [.reTryLock r.re false], abortMsg := none })
  else
    let fl := RWLock.flag_locked r.state
    if fl.1 then
      (true, { state := fl.2, trace := r.trace ++ [.reTryLock r.re true], abortMsg := none })
    else
      (false, { state := fl.2, trace := r.trace ++ [.reTryLock r.re true, .reUnlock r.re],
                abortMsg := none })

/-- `RWLock::write` (rwlock.rs lines 42-44): calls `RWLock::read`. -/
def RWLock.write (s : LockState) : LockOutcome :=
  RWLock.read s

/-- `RWLock::try_write` (rwlock.rs lines 46-48): calls `RWLock::try_read`. -/
def RWLock.try_write (tryOk : Bool) (s : LockState) : Bool × LockOutcome :=
  RWLock.try_read tryOk s

/-- `RWLock::read_unlock` (rwlock.rs lines 50-53). -/
def RWLock.read_unlock (s : LockState) : LockState × List ReAction :=
  let s1 := { s with held := false }
  let r := RWLock.remutex s1
  (r.state, r.trace ++ [.reUnlock r.re])

/-- `RWLock::write_unlock` (rwlock.rs lines 55-57): calls `RWLock::read_unlock`. -/
def RWLock.write_unlock (s : LockState) : LockState × List ReAction :=
  RWLock.read_unlock s

/-- `RWLock::destroy` (rwlock.rs lines 60-65). -/
def RWLock.destroy (s : LockState) : LockState × List ReAction :=
  match s.lock with
  | 0 => (s, [])
  | n => ({ s with alive := s.alive.erase n }, [.reDestroy n])

/-! ### The remutex publication race, as a small-step system.

Several threads may call `remutex` concurrently on the same `Mutex` /
`RWLock` value.  Each thread steps through the program points of
mutex.rs lines 78-93: load the slot; (if it was zero) allocate and
initialize a fresh `ReentrantMutex`; attempt the compare-and-swap.  A
schedule is a list of thread indices; `RemState.run` executes it. -/

inductive RemThread
  /-- about to load the slot (line 79) -/
  | start
  /-- loaded 0; about to allocate (lines 83-85) -/
  | sawZero
  /-- holding a fresh allocation `re`; about to compare_and_swap (line 86) -/
  | allocated (re : Nat)
  /-- returned `ret` from `remutex` -/
  | done (ret : Nat)
deriving DecidableEq

def RemThread.isDone : RemThread → Bool
  | .done _ => true
  | _ => false

structure RemState where
  slot : Nat
  alive : List Nat
  fresh : Nat
  threads : List RemThread
deriving DecidableEq

def RemState.step (s : RemState) (i : Nat) : Option RemState :=
  match s.threads[i]? with
  | none => none
  | some t =>
    match t with
    | .start =>
      -- lines 79-82: match on the loaded slot
      match s.slot with
      | 0 => some { s with threads := s.threads.set i .sawZero }
      | n => some { s with threads := s.threads.set i (.done n) }
    | .sawZero =>
      -- lines 83-85: allocate and initialize a fresh ReentrantMutex
      let re := s.fresh + 1
      some { s with fresh := re, alive := re :: s.alive,
                    threads := s.threads.set i (.allocated re) }
    | .allocated re =>
      -- lines 86-92: compare_and_swap(0, re)
      match s.slot with
      | 0 => some { s with slot := re, threads := s.threads.set i (.done re) }
      | n => some { s with alive := s.alive.erase re,
                           threads := s.threads.set i (.done n) }
    | .done _ => none

def RemState.run (s : RemState) : List Nat → Option RemState
  | [] => some s
  | i :: cs =>
    match s.step i with
    | none => none
    | some s1 => s1.run cs

/-- `n` threads about to race on `remutex` of one lock whose slot is still 0. -/
def remInit (n : Nat) (f : Nat) : RemState :=
  { slot := 0, alive := [], fresh := f, threads := List.replicate n .start }

/-! ### The condvar protocol, as a small-step system.

Arbitrarily many waiter threads (each running `wait_timeout`, condvar.rs
lines 46-103) and notifier threads (each running `wakeup`, lines 123-137)
interleave at the granularity of the individual atomic instructions and
host calls of the source.  The host objects follow the semantics fixed by
`Condvar::init` (lines 33-40): the control-token semaphore has maximum
count 1, so `ReleaseSemaphore` fails (and the source asserts) when the
count is already 1; the wake-one event is auto-reset (consumed by the
waiter it wakes); the wake-all event is manual-reset.
`WaitForMultipleObjects([wakeOneEvent, wakeAllEvent], FALSE, timeout)` may
report: index 0 when the wake-one event is signaled (consuming it);
index 1 when the wake-all event is signaled and the wake-one event is not
(the source lists the wake-one event first, so it has priority); or
timeout, only when the converted duration is finite.  The external mutex
does not interact with the condvar state and is not modelled. -/

inductive WaiterPc
  /-- about to WaitForSingleObject on the control token (line 47) -/
  | acq
  /-- about to fetch_add(1) on the state word (line 49) -/
  | reg
  /-- about to load the state word and assert no pending wakeup mode (lines 50-51) -/
  | chk
  /-- about to ReleaseSemaphore (line 52) -/
  | rel
  /-- blocked in WaitForMultipleObjects (line 56) -/
  | osWait
  /-- returned `r` from the OS wait; about to fetch_add(-sub) (lines 58-65) -/
  | subtract (r : WaitResult)
  /-- about to ResetEvent(wakeOneEvent) (line 75) -/
  | resetOne
  /-- about to store WAKEUP_MODE_NONE (line 77) -/
  | storeOne
  /-- about to ResetEvent(wakeAllEvent) (line 80) -/
  | resetAll
  /-- about to store WAKEUP_MODE_NONE (line 82) -/
  | storeAll
  /-- about to ReleaseSemaphore in the cleanup step (line 91) -/
  | relTok
  /-- done (mutex relocked, value returned) -/
  | finished
  /-- the registration assertion on line 51 fired -/
  | failed
  /-- the panic on line 87 fired -/
  | invalidWakeup
  /-- a ReleaseSemaphore call failed (count was already at its maximum 1)
      and the assertion on line 53 or 92 fired -/
  | relFailed
deriving DecidableEq

structure Waiter where
  pc : WaiterPc
  /-- whether `dur2timeout(dur) != INFINITE` for this call, i.e. the OS wait
      can time out -/
  fin : Bool
deriving DecidableEq

inductive NotifyKind
  | one
  | all
deriving DecidableEq

def NotifyKind.modeBit : NotifyKind → Nat
  | .one => WAKEUP_MODE_ONE
  | .all => WAKEUP_MODE_ALL

inductive NotifierPc
  /-- about to WaitForSingleObject on the control token (line 124) -/
  | nacq
  /-- about to fetch_add(modeBit) on the state word (line 126) -/
  | nadd
  /-- saw a prior sleepersCount > 0; about to SetEvent (line 129) -/
  | nset
  /-- saw prior sleepersCount == 0; about to store WAKEUP_MODE_NONE (line 132) -/
  | nstore
  /-- about to ReleaseSemaphore (line 133) -/
  | nrel
  /-- done -/
  | ndone
  /-- ReleaseSemaphore failed and the assertion on line 134 fired -/
  | nrelFailed
deriving DecidableEq

structure Notifier where
  pc : NotifierPc
  kind : NotifyKind
deriving DecidableEq

structure CvSys where
  word : Nat
  sem : Nat
  wakeOneSet : Bool
  wakeAllSet : Bool
  waiters : List Waiter
  notifiers : List Notifier
deriving DecidableEq

def CvSys.setWaiter (s : CvSys) (i : Nat) (w : Waiter) (pc : WaiterPc) : CvSys :=
  { s with waiters := s.waiters.set i { w with pc := pc } }

def CvSys.setNotifier (s : CvSys) (j : Nat) (n : Notifier) (pc : NotifierPc) : CvSys :=
  { s with notifiers := s.notifiers.set j { n with pc := pc } }

/-- One step of waiter `i`; `pick` selects, at `osWait` only, which enabled
outcome of `WaitForMultipleObjects` occurs. -/
def CvSys.wstep (s : CvSys) (i : Nat) (pick : WaitResult) : Option CvSys :=
  match s.waiters[i]? with
  | none => none
  | some w =>
    match w.pc with
    | .acq =>
      if s.sem = 0 then none
      else some { (s.setWaiter i w .reg) with sem := s.sem - 1 }
    | .reg =>
      some { (s.setWaiter i w .chk) with word := (s.word + 1) % USIZE }
    | .chk =>
      if s.word &&& WAKEUP_MODE_MASK ≠ 0 then some (s.setWaiter i w .failed)
      else some (s.setWaiter i w .rel)
    | .rel =>
      if s.sem = 0 then some { (s.setWaiter i w .osWait) with sem := 1 }
      else some (s.setWaiter i w .relFailed)
    | .osWait =>
      match pick with
      | .wakeOne =>
        if s.wakeOneSet then some { (s.setWaiter i w (.subtract .wakeOne)) with wakeOneSet := false }
        else none
      | .wakeAll =>
        if s.wakeAllSet ∧ ¬s.wakeOneSet then some (s.setWaiter i w (.subtract .wakeAll))
        else none
      | .timedOut =>
        if w.fin then some (s.setWaiter i w (.subtract .timedOut))
        else none
    | .subtract r =>
      let sub : Nat := if r = .wakeOne then 1 ||| WAKEUP_MODE_ONE else 1
      let wcwm := (s.word + (USIZE - sub)) % USIZE
      let wakeupMode := wcwm &&& WAKEUP_MODE_MASK
      let sleepersCount := wcwm &&& SLEEPERS_COUNT_MASK
      let pc1 : WaiterPc :=
        if r = .wakeOne then .relTok
        else if r = .timedOut ∧ wakeupMode = WAKEUP_MODE_ONE ∧ sleepersCount = 0 then .resetOne
        else if wakeupMode = WAKEUP_MODE_ALL ∧ sleepersCount = 0 then .resetAll
        else if (r = .timedOut ∧ w.fin) ∨ (r = .wakeAll ∧ wakeupMode = WAKEUP_MODE_ALL) then .finished
        else .invalidWakeup
      some { (s.setWaiter i w pc1) with word := wcwm }
    | .resetOne => some { (s.setWaiter i w .storeOne) with wakeOneSet := false }
    | .storeOne => some { (s.setWaiter i w .relTok) with word := WAKEUP_MODE_NONE }
    | .resetAll => some { (s.setWaiter i w .storeAll) with wakeAllSet := false }
    | .storeAll => some { (s.setWaiter i w .relTok) with word := WAKEUP_MODE_NONE }
    | .relTok =>
      if s.sem = 0 then some { (s.setWaiter i w .finished) with sem := 1 }
      else some (s.setWaiter i w .relFailed)
    | .finished | .failed | .invalidWakeup | .relFailed => none

/-- One step of notifier `j`. -/
def CvSys.nstep (s : CvSys) (j : Nat) : Option CvSys :=
  match s.notifiers[j]? with
  | none => none
  | some n =>
    match n.pc with
    | .nacq =>
      if s.sem = 0 then none
      else some { (s.setNotifier j n .nadd) with sem := s.sem - 1 }
    | .nadd =>
      let prior := s.word
      let sw := (s.word + n.kind.modeBit) % USIZE
      if prior &&& SLEEPERS_COUNT_MASK > 0 then
        some { (s.setNotifier j n .nset) with word := sw }
      else
        some { (s.setNotifier j n .nstore) with word := sw }
    | .nset =>
      match n.kind with
      | .one => some { (s.setNotifier j n .ndone) with wakeOneSet := true }
      | .all => some { (s.setNotifier j n .ndone) with wakeAllSet := true }
    | .nstore => some { (s.setNotifier j n .nrel) with word := WAKEUP_MODE_NONE }
    | .nrel =>
      if s.sem = 0 then some { (s.setNotifier j n .ndone) with sem := 1 }
      else some (s.setNotifier j n .nrelFailed)
    | .ndone | .nrelFailed => none

inductive CvChoice
  | w (i : Nat) (pick : WaitResult)
  | n (j : Nat)
deriving DecidableEq

def CvSys.stepc (s : CvSys) : CvChoice → Option CvSys
  | .w i pick => s.wstep i pick
  | .n j => s.nstep j

def CvSys.run (s : CvSys) : List CvChoice → Option CvSys
  | [] => some s
  | c :: cs =>
    match s.stepc c with
    | none => none
    | some s1 => s1.run cs

/-- A freshly initialized condvar (state word 0, semaphore count 1, both
events unset) together with three waiter threads that will each call
`wait_timeout` with a finite duration, and one thread that will call
`notify_one`. -/
def cvInit : CvSys :=
  { word := 0, sem := 1, wakeOneSet := false, wakeAllSet := false,
    waiters := [⟨.acq, true⟩, ⟨.acq, true⟩, ⟨.acq, true⟩],
    notifiers := [⟨.nacq, .one⟩] }

/-- An interleaving of `cvInit`:
waiter 0 registers and blocks; the notifier acquires the token, adds the
ONE bit (prior sleepersCount 1 > 0) and is preempted just before its
`SetEvent`; waiter 0 times out, subtracts 1, observes `wakeupMode == ONE`
and `sleepersCount == 0`, so it resets the (still unset) wake-one event,
stores NONE and releases the token; the notifier now performs its
`SetEvent`, leaving the auto-reset event signaled while the condvar is
idle; waiter 1 registers and is immediately woken via that stale event, so
it subtracts `1 + ONE` from a state word of 1, wrapping the word to
`2^64 - 2^30`; waiter 2 then acquires the token, increments, and its
registration assertion sees nonzero mode bits. -/
def cvTrace : List CvChoice :=
  [ .w 0 .timedOut, .w 0 .timedOut, .w 0 .timedOut, .w 0 .timedOut,
    .n 0, .n 0,
    .w 0 .timedOut, .w 0 .timedOut, .w 0 .timedOut, .w 0 .timedOut, .w 0 .timedOut,
    .n 0,
    .w 1 .wakeOne, .w 1 .wakeOne, .w 1 .wakeOne, .w 1 .wakeOne, .w 1 .wakeOne, .w 1 .wakeOne,
    .w 2 .timedOut, .w 2 .timedOut, .w 2 .timedOut ]

/-- Number of threads currently holding a not-yet-published allocation at
address `p`. -/
def remAllocCount (p : Nat) (ts : List RemThread) : Nat :=
  ts.countP (fun t => t == RemThread.allocated p)

/-- Invariant of the remutex publication race: every allocation is accounted
for either by the published slot or by exactly one thread that has not yet
done its compare-and-swap; finished threads returned the published pointer. -/
def RemInv (s : RemState) : Prop :=
  (∀ p, p ≠ 0 → s.alive.count p = (if s.slot = p then 1 else 0) + remAllocCount p s.threads) ∧
  (∀ p, p ∈ s.alive → p ≠ 0) ∧
  (∀ r, RemThread.done r ∈ s.threads → r = s.slot ∧ s.slot ≠ 0) ∧
  (∀ p, RemThread.allocated p ∈ s.threads → p ≠ 0)

/-! ## Theorems -/

theorem countP_set_add {α : Type} (q : α → Bool) (ts : List α) (i : Nat) (t tn : α)
    (h : ts[i]? = some t) :
    (ts.set i tn).countP q + (if q t then 1 else 0) =
      ts.countP q + (if q tn then 1 else 0) := by
  induction ts generalizing i with
  | nil => simp at h
  | cons hd tl ih =>
    cases i with
    | zero =>
      simp only [List.getElem?_cons_zero, Option.some.injEq] at h
      subst h
      simp [List.countP_cons]
      omega
    | succ n =>
      simp only [List.getElem?_cons_succ] at h
      have e := ih n h
      simp [List.countP_cons]
      omega

/-- C1: in `wakeup` (used by both `notify_one` and `notify_all`), after the
control-token semaphore is acquired, the mode bit is atomically added to the
state word and the prior `sleepersCount` is read; if it was positive the
corresponding event is signaled and the token is not released, and if it was
zero the state word is reset to `NONE` and the token is released, leaving the
condvar idle. -/
theorem Condvar.notify_handoff_spec (s : CondvarState) (hsem : s.semCount = 1) :
    (s.sleepersCountAndWakeupMode &&& SLEEPERS_COUNT_MASK > 0 →
      ((Condvar.notify_one s).eventSignaled = true ∧
       (Condvar.notify_one s).state.wakeOneSet = true ∧
       (Condvar.notify_one s).tokenReleased = false ∧
       (Condvar.notify_one s).state.semCount = 0 ∧
       (Condvar.notify_one s).state.sleepersCountAndWakeupMode =
         (s.sleepersCountAndWakeupMode + WAKEUP_MODE_ONE) % USIZE) ∧
      ((Condvar.notify_all s).eventSignaled = true ∧
       (Condvar.notify_all s).state.wakeAllSet = true ∧
       (Condvar.notify_all s).tokenReleased = false ∧
       (Condvar.notify_all s).state.semCount = 0 ∧
       (Condvar.notify_all s).state.sleepersCountAndWakeupMode =
         (s.sleepersCountAndWakeupMode + WAKEUP_MODE_ALL) % USIZE)) ∧
    (s.sleepersCountAndWakeupMode &&& SLEEPERS_COUNT_MASK = 0 →
      ((Condvar.notify_one s).eventSignaled = false ∧
       (Condvar.notify_one s).tokenReleased = true ∧
       (Condvar.notify_one s).state.sleepersCountAndWakeupMode = WAKEUP_MODE_NONE ∧
       (Condvar.notify_one s).state.semCount = 1) ∧
      ((Condvar.notify_all s).eventSignaled = false ∧
       (Condvar.notify_all s).tokenReleased = true ∧
       (Condvar.notify_all s).state.sleepersCountAndWakeupMode = WAKEUP_MODE_NONE ∧
       (Condvar.notify_all s).state.semCount = 1)) := by
  constructor <;> intro h <;>
    simp [Condvar.notify_one, Condvar.notify_all, Condvar.wakeup, hsem, h]

theorem Condvar.notify_handoff_spec_witness :
    (Condvar.notify_one ⟨3, 1, false, false⟩).tokenReleased = false ∧
    (Condvar.notify_all ⟨0, 1, false, false⟩).tokenReleased = true :=
  ⟨((Condvar.notify_handoff_spec ⟨3, 1, false, false⟩ rfl).1 (by decide)).1.2.2.1,
   ((Condvar.notify_handoff_spec ⟨0, 1, false, false⟩ rfl).2 (by decide)).2.2.1⟩

/-- C2: in every execution of `wait_timeout` that passes the registration
assertion, the amount subtracted from the state word is exactly
`1 + WAKEUP_MODE_ONE` (one sleeper plus one ONE-credit) when the thread was
woken via the auto-reset wake-one event, and exactly 1 in every other case;
the `wakeupMode` and `sleepersCount` used for the cleanup decision are read
from the state word that results from that subtraction. -/
theorem Condvar.wait_timeout_subtraction_spec (wordAtCheck : Nat) (waitResult : WaitResult)
    (wordBeforeSub : Nat) (dur : Duration)
    (hreg : wordAtCheck &&& WAKEUP_MODE_MASK = 0) :
    (Condvar.wait_timeout wordAtCheck waitResult wordBeforeSub dur).subtracted =
      (if waitResult = .wakeOne then 1 + WAKEUP_MODE_ONE else 1) ∧
    (Condvar.wait_timeout wordAtCheck waitResult wordBeforeSub dur).wordAfterSub =
      (wordBeforeSub +
        (USIZE - (Condvar.wait_timeout wordAtCheck waitResult wordBeforeSub dur).subtracted))
        % USIZE ∧
    (Condvar.wait_timeout wordAtCheck waitResult wordBeforeSub dur).wakeupMode =
      (Condvar.wait_timeout wordAtCheck waitResult wordBeforeSub dur).wordAfterSub
        &&& WAKEUP_MODE_MASK ∧
    (Condvar.wait_timeout wordAtCheck waitResult wordBeforeSub dur).sleepersCount =
      (Condvar.wait_timeout wordAtCheck waitResult wordBeforeSub dur).wordAfterSub
        &&& SLEEPERS_COUNT_MASK := by
  have hone : (1 ||| WAKEUP_MODE_ONE) = 1 + WAKEUP_MODE_ONE := by decide
  cases waitResult <;>
    simp [Condvar.wait_timeout, hreg, hone] <;>
    (try split_ifs) <;>
    simp [hone]

theorem Condvar.wait_timeout_subtraction_spec_witness :
    (Condvar.wait_timeout 0 .wakeOne (1 + WAKEUP_MODE_ONE) ⟨0, 0⟩).subtracted =
      1 + WAKEUP_MODE_ONE := by
  have h := (Condvar.wait_timeout_subtraction_spec 0 .wakeOne (1 + WAKEUP_MODE_ONE) ⟨0, 0⟩
    (by decide)).1
  simpa using h

/-- C3: the cleanup step of `wait_timeout` releases the control token exactly
when the thread was woken via the auto-reset event, or timed out with
post-decrement `wakeupMode == ONE` and `sleepersCount == 0` (after resetting
the wake-one event and clearing the state word), or post-decrement
`wakeupMode == ALL` and `sleepersCount == 0` (after resetting the wake-all
event and clearing the state word); it takes no token action on a finite-wait
timeout or when woken via the manual event with `wakeupMode == ALL` while
sleepers remain; every other combination aborts with
"invalid wakeup condition". -/
theorem Condvar.wait_timeout_cleanup_spec (a : Nat) (r : WaitResult) (b : Nat) (dur : Duration)
    (hreg : a &&& WAKEUP_MODE_MASK = 0) :
    ((Condvar.wait_timeout a r b dur).cleanupReleasedToken = true ↔
      (r = .wakeOne ∨
       (r = .timedOut ∧ (Condvar.wait_timeout a r b dur).wakeupMode = WAKEUP_MODE_ONE ∧
        (Condvar.wait_timeout a r b dur).sleepersCount = 0) ∨
       ((Condvar.wait_timeout a r b dur).wakeupMode = WAKEUP_MODE_ALL ∧
        (Condvar.wait_timeout a r b dur).sleepersCount = 0))) ∧
    ((r = .timedOut ∧ (Condvar.wait_timeout a r b dur).wakeupMode = WAKEUP_MODE_ONE ∧
        (Condvar.wait_timeout a r b dur).sleepersCount = 0 →
      (Condvar.wait_timeout a r b dur).resetWakeOne = true ∧
      (Condvar.wait_timeout a r b dur).storedNone = true)) ∧
    ((¬r = .wakeOne ∧ (Condvar.wait_timeout a r b dur).wakeupMode = WAKEUP_MODE_ALL ∧
        (Condvar.wait_timeout a r b dur).sleepersCount = 0 →
      (Condvar.wait_timeout a r b dur).resetWakeAll = true ∧
      (Condvar.wait_timeout a r b dur).storedNone = true)) ∧
    ((((r = .timedOut ∧ dur2timeout dur ≠ INFINITE) ∨
       (r = .wakeAll ∧ (Condvar.wait_timeout a r b dur).wakeupMode = WAKEUP_MODE_ALL)) ∧
      ¬(r = .timedOut ∧ (Condvar.wait_timeout a r b dur).wakeupMode = WAKEUP_MODE_ONE ∧
        (Condvar.wait_timeout a r b dur).sleepersCount = 0) ∧
      ¬((Condvar.wait_timeout a r b dur).wakeupMode = WAKEUP_MODE_ALL ∧
        (Condvar.wait_timeout a r b dur).sleepersCount = 0) →
      (Condvar.wait_timeout a r b dur).cleanupReleasedToken = false ∧
      (Condvar.wait_timeout a r b dur).resetWakeOne = false ∧
      (Condvar.wait_timeout a r b dur).resetWakeAll = false ∧
      (Condvar.wait_timeout a r b dur).storedNone = false)) ∧
    ((Condvar.wait_timeout a r b dur).outcome = .aborted ("invalid wakeup condition") ↔
      (¬r = .wakeOne ∧
       ¬(r = .timedOut ∧ (Condvar.wait_timeout a r b dur).wakeupMode = WAKEUP_MODE_ONE ∧
         (Condvar.wait_timeout a r b dur).sleepersCount = 0) ∧
       ¬((Condvar.wait_timeout a r b dur).wakeupMode = WAKEUP_MODE_ALL ∧
         (Condvar.wait_timeout a r b dur).sleepersCount = 0) ∧
       ¬((r = .timedOut ∧ dur2timeout dur ≠ INFINITE) ∨
         (r = .wakeAll ∧ (Condvar.wait_timeout a r b dur).wakeupMode = WAKEUP_MODE_ALL)))) := by
  cases r <;>
    simp [Condvar.wait_timeout, hreg] <;>
    (try split_ifs) <;>
    simp_all <;>
    tauto

theorem Condvar.wait_timeout_cleanup_spec_witness :
    (Condvar.wait_timeout 0 .timedOut 0x40000001 ⟨0, 0⟩).resetWakeOne = true ∧
    (Condvar.wait_timeout 0 .timedOut 0x40000001 ⟨0, 0⟩).storedNone = true :=
  (Condvar.wait_timeout_cleanup_spec 0 .timedOut 0x40000001 ⟨0, 0⟩ (by decide)).2.1 (by decide)

/-- C9: every execution of `wait_timeout` that returns (does not abort)
re-acquires the external mutex before returning, and its boolean result is
`false` exactly when the OS wait ended via timeout; `wait` is `wait_timeout`
with a duration of 1000 years, whose converted timeout is the INFINITE
sentinel, discarding the flag. -/
theorem Condvar.wait_timeout_return_spec :
    (∀ (a : Nat) (r : WaitResult) (b : Nat) (dur : Duration) (flag : Bool),
      (Condvar.wait_timeout a r b dur).outcome = .returned flag →
        (Condvar.wait_timeout a r b dur).mutexReacquired = true ∧
        (flag = false ↔ r = .timedOut)) ∧
    (∀ a r b, Condvar.wait a r b =
      Condvar.wait_timeout a r b (Duration.from_secs (1000 * 365 * 86400))) ∧
    dur2timeout (Duration.from_secs (1000 * 365 * 86400)) = INFINITE := by
  refine ⟨?_, fun a r b => rfl, by decide⟩
  intro a r b dur flag h
  by_cases hreg : a &&& WAKEUP_MODE_MASK = 0
  · cases r <;>
      simp [Condvar.wait_timeout, hreg] at h ⊢ <;>
      (try split_ifs at h ⊢) <;>
      simp_all
  · simp [Condvar.wait_timeout, hreg] at h

theorem Condvar.wait_timeout_return_spec_witness :
    (Condvar.wait_timeout 0 .timedOut 1 ⟨0, 0⟩).mutexReacquired = true :=
  (Condvar.wait_timeout_return_spec.1 0 .timedOut 1 ⟨0, 0⟩ false (by decide)).1

theorem Mutex.remutex_held (s : LockState) : (Mutex.remutex s).state.held = s.held := by
  cases hs : s.lock <;> simp [Mutex.remutex, hs]

theorem Mutex.remutex_of_ne (s : LockState) (h : s.lock ≠ 0) :
    Mutex.remutex s = { re := s.lock, state := s, trace := [] } := by
  cases hs : s.lock with
  | zero => exact absurd hs h
  | succ n => simp [Mutex.remutex, hs]

/-- C5: `Mutex::lock` with the "held" flag already set releases the backing
lock it just engaged and aborts with "cannot recursively lock a mutex"; with
the flag clear it sets the flag and returns with the backing lock engaged. -/
theorem Mutex.lock_recursion_spec (s : LockState) :
    (s.held = true →
      Mutex.lock s =
        { state := (Mutex.remutex s).state,
          trace := (Mutex.remutex s).trace ++
            [.reLock (Mutex.remutex s).re, .reUnlock (Mutex.remutex s).re],
          abortMsg := some ("cannot recursively lock a mutex") }) ∧
    (s.held = false →
      (Mutex.lock s).abortMsg = none ∧
      (Mutex.lock s).state.held = true ∧
      (Mutex.lock s).trace = (Mutex.remutex s).trace ++ [.reLock (Mutex.remutex s).re]) := by
  constructor <;> intro h <;>
    simp [Mutex.lock, Mutex.flag_locked, Mutex.remutex_held, h]

theorem Mutex.lock_recursion_spec_witness :
    (Mutex.lock ⟨5, true, [5], 5⟩).abortMsg = some ("cannot recursively lock a mutex") ∧
    (Mutex.lock ⟨5, false, [5], 5⟩).abortMsg = none := by
  constructor
  · rw [(Mutex.lock_recursion_spec ⟨5, true, [5], 5⟩).1 rfl]
  · exact ((Mutex.lock_recursion_spec ⟨5, false, [5], 5⟩).2 rfl).1

/-- C6: `Mutex::try_lock` returns false without side effects when the
try-enter of the (already published) backing lock fails; when the backing
lock was acquired but the "held" flag was already set it releases the
just-acquired backing lock and returns false; it returns true with "held"
set exactly when the backing lock was acquired and the flag was false. -/
theorem Mutex.try_lock_spec (s : LockState) :
    (s.lock ≠ 0 →
      Mutex.try_lock false s =
        (false, { state := s, trace := [.reTryLock s.lock false], abortMsg := none })) ∧
    (s.held = true →
      Mutex.try_lock true s =
        (false, { state := (Mutex.remutex s).state,
                  trace := (Mutex.remutex s).trace ++
                    [.reTryLock (Mutex.remutex s).re true, .reUnlock (Mutex.remutex s).re],
                  abortMsg := none })) ∧
    (s.held = false →
      (Mutex.try_lock true s).1 = true ∧
      (Mutex.try_lock true s).2.state.held = true ∧
      (Mutex.try_lock true s).2.abortMsg = none ∧
      (Mutex.try_lock true s).2.trace =
        (Mutex.remutex s).trace ++ [.reTryLock (Mutex.remutex s).re true]) := by
  refine ⟨fun h => ?_, fun h => ?_, fun h => ?_⟩
  · simp [Mutex.try_lock, Mutex.remutex_of_ne s h]
  · simp [Mutex.try_lock, Mutex.flag_locked, Mutex.remutex_held, h]
  · simp [Mutex.try_lock, Mutex.flag_locked, Mutex.remutex_held, h]

theorem Mutex.try_lock_spec_witness :
    Mutex.try_lock false ⟨5, false, [5], 5⟩ =
      (false, { state := ⟨5, false, [5], 5⟩, trace := [.reTryLock 5 false], abortMsg := none }) ∧
    (Mutex.try_lock true ⟨5, true, [5], 5⟩).1 = false ∧
    (Mutex.try_lock true ⟨5, false, [5], 5⟩).1 = true :=
  ⟨(Mutex.try_lock_spec ⟨5, false, [5], 5⟩).1 (by decide),
   by rw [(Mutex.try_lock_spec ⟨5, true, [5], 5⟩).2.1 rfl],
   ((Mutex.try_lock_spec ⟨5, false, [5], 5⟩).2.2 rfl).1⟩

/-- C8: `RWLock` degrades to `Mutex` semantics: `write` behaves identically
to `read`, `try_write` to `try_read`, `write_unlock` to `read_unlock`, and
the `RWLock` operations coincide with `Mutex::lock`, `Mutex::try_lock` and
`Mutex::unlock` on every state. -/
theorem RWLock.degrades_to_mutex_spec :
    (∀ s, RWLock.write s = RWLock.read s) ∧
    (∀ ok s, RWLock.try_write ok s = RWLock.try_read ok s) ∧
    (∀ s, RWLock.write_unlock s = RWLock.read_unlock s) ∧
    (∀ s, RWLock.read s = Mutex.lock s) ∧
    (∀ ok s, RWLock.try_read ok s = Mutex.try_lock ok s) ∧
    (∀ s, RWLock.read_unlock s = Mutex.unlock s) :=
  ⟨fun _ => rfl, fun _ _ => rfl, fun _ => rfl, fun _ => rfl, fun _ _ => rfl, fun _ => rfl⟩

/-- C10: `Mutex::unlock` (and `RWLock::read_unlock`) on a mutex whose backing
lock was never created clears the "held" flag, then allocates, initializes
and publishes a fresh backing `ReentrantMutex` through the lazy `remutex`
path, and invokes release on that never-acquired lock. -/
theorem Mutex.unlock_lazy_backing_spec (s : LockState) (h : s.lock = 0) :
    ((Mutex.unlock s).1.held = false ∧
     (Mutex.unlock s).1.lock = s.fresh + 1 ∧
     (s.fresh + 1) ∈ (Mutex.unlock s).1.alive ∧
     (Mutex.unlock s).2 = [.reInit (s.fresh + 1), .reUnlock (s.fresh + 1)]) ∧
    ((RWLock.read_unlock s).1.held = false ∧
     (RWLock.read_unlock s).1.lock = s.fresh + 1 ∧
     (s.fresh + 1) ∈ (RWLock.read_unlock s).1.alive ∧
     (RWLock.read_unlock s).2 = [.reInit (s.fresh + 1), .reUnlock (s.fresh + 1)]) := by
  simp [Mutex.unlock, RWLock.read_unlock, Mutex.remutex, RWLock.remutex, h]

theorem Mutex.unlock_lazy_backing_spec_witness :
    (Mutex.unlock ⟨0, true, [], 7⟩).2 = [.reInit 8, .reUnlock 8] :=
  (Mutex.unlock_lazy_backing_spec ⟨0, true, [], 7⟩ rfl).1.2.2.2

theorem RemInv.step {s s1 : RemState} {i : Nat}
    (inv : RemInv s) (h : RemState.step s i = some s1) : RemInv s1 := by
  obtain ⟨h1, h2, h3, h4⟩ := inv
  unfold RemState.step at h
  cases hti : s.threads[i]? with
  | none => simp [hti] at h
  | some t =>
    have htmem : t ∈ s.threads := List.getElem?_mem hti
    rw [hti] at h
    cases t with
    | start =>
      cases hslot : s.slot with
      | zero =>
        rw [hslot] at h
        injection h with h
        subst h
        refine ⟨?_, h2, ?_, ?_⟩
        · intro p hp
          have e := countP_set_add (fun t => t == RemThread.allocated p)
            s.threads i .start .sawZero hti
          simp at e
          have h1p := h1 p hp
          rw [hslot] at h1p
          simpa [remAllocCount, e] using h1p
        · intro r hr
          rcases List.mem_or_eq_of_mem_set hr with hr | hr
          · exact absurd hslot (h3 r hr).2
          · simp at hr
        · intro p hp
          rcases List.mem_or_eq_of_mem_set hp with hp | hp
          · exact h4 p hp
          · simp at hp
      | succ m =>
        rw [hslot] at h
        injection h with h
        subst h
        refine ⟨?_, h2, ?_, ?_⟩
        · intro p hp
          have e := countP_set_add (fun t => t == RemThread.allocated p)
            s.threads i .start (.done (m + 1)) hti
          simp at e
          have h1p := h1 p hp
          rw [hslot] at h1p
          simpa [remAllocCount, e] using h1p
        · intro r hr
          rcases List.mem_or_eq_of_mem_set hr with hr | hr
          · have hr1 := (h3 r hr).1
            rw [hslot] at hr1
            exact ⟨hr1, by simp⟩
          · injection hr with hr
            exact ⟨hr, by simp⟩
        · intro p hp
          rcases List.mem_or_eq_of_mem_set hp with hp | hp
          · exact h4 p hp
          · simp at hp
    | sawZero =>
      injection h with h
      subst h
      refine ⟨?_, ?_, ?_, ?_⟩
      · intro p hp
        have h1p := h1 p hp
        by_cases hpp : s.fresh + 1 = p
        · have e := countP_set_add (fun t => t == RemThread.allocated p)
            s.threads i .sawZero (.allocated p) hti
          simp at e
          simp [remAllocCount, List.count_cons, hpp, e] at *
          omega
        · have e := countP_set_add (fun t => t == RemThread.allocated p)
            s.threads i .sawZero (.allocated (s.fresh + 1)) hti
          simp [hpp] at e
          simp [remAllocCount, List.count_cons, e, Ne.symm hpp, hpp]
          simpa [remAllocCount] using h1p
      · intro p hp
        rcases List.mem_cons.1 hp with rfl | hp
        · simp
        · exact h2 p hp
      · intro r hr
        rcases List.mem_or_eq_of_mem_set hr with hr | hr
        · exact h3 r hr
        · simp at hr
      · intro p hp
        rcases List.mem_or_eq_of_mem_set hp with hp | hp
        · exact h4 p hp
        · injection hp with hp
          omega
    | allocated re =>
      have hre0 : re ≠ 0 := h4 re htmem
      cases hslot : s.slot with
      | zero =>
        rw [hslot] at h
        injection h with h
        subst h
        refine ⟨?_, h2, ?_, ?_⟩
        · intro p hp
          have h1p := h1 p hp
          rw [hslot, if_neg (by omega)] at h1p
          by_cases hpp : re = p
          · subst hpp
            have e := countP_set_add (fun t => t == RemThread.allocated re)
              s.threads i (.allocated re) (.done re) hti
            simp at e
            simp [remAllocCount] at *
            omega
          · have e := countP_set_add (fun t => t == RemThread.allocated p)
              s.threads i (.allocated re) (.done re) hti
            simp [hpp] at e
            simp [remAllocCount, hpp, e] at *
            omega
        · intro r hr
          rcases List.mem_or_eq_of_mem_set hr with hr | hr
          · exact absurd hslot (h3 r hr).2
          · injection hr with hr
            exact ⟨hr, hre0⟩
        · intro p hp
          rcases List.mem_or_eq_of_mem_set hp with hp | hp
          · exact h4 p hp
          · simp at hp
      | succ m =>
        rw [hslot] at h
        injection h with h
        subst h
        have hcp : 0 < remAllocCount re s.threads :=
          List.countP_pos_iff.2 ⟨.allocated re, htmem, by simp⟩
        refine ⟨?_, ?_, ?_, ?_⟩
        · intro p hp
          have h1p := h1 p hp
          rw [hslot] at h1p
          by_cases hpp : re = p
          · subst hpp
            have e := countP_set_add (fun t => t == RemThread.allocated re)
              s.threads i (.allocated re) (.done (m + 1)) hti
            simp at e
            simp [remAllocCount, List.count_erase] at *
            omega
          · have e := countP_set_add (fun t => t == RemThread.allocated p)
              s.threads i (.allocated re) (.done (m + 1)) hti
            simp [hpp] at e
            simp [remAllocCount, List.count_erase, Ne.symm hpp, e] at *
            omega
        · intro p hp
          exact h2 p (List.mem_of_mem_erase hp)
        · intro r hr
          rcases List.mem_or_eq_of_mem_set hr with hr | hr
          · have hr1 := (h3 r hr).1
            rw [hslot] at hr1
            exact ⟨hr1, by simp⟩
          · injection hr with hr
            exact ⟨hr, by simp⟩
        · intro p hp
          rcases List.mem_or_eq_of_mem_set hp with hp | hp
          · exact h4 p hp
          · simp at hp
    | done ret => simp at h

theorem RemInv.run : ∀ (cs : List Nat) {s s1 : RemState},
    RemInv s → RemState.run s cs = some s1 → RemInv s1
  | [], s, s1, inv, h => by
      simp only [RemState.run, Option.some.injEq] at h
      exact h ▸ inv
  | i :: cs, s, s1, inv, h => by
      unfold RemState.run at h
      cases hs : s.step i with
      | none => rw [hs] at h; simp at h
      | some s2 =>
        rw [hs] at h
        exact RemInv.run cs (inv.step hs) h

theorem remInit_inv (n f : Nat) : RemInv (remInit n f) := by
  refine ⟨fun p hp => ?_, fun p hp => ?_, fun r hr => ?_, fun p hp => ?_⟩
  · have hz : remAllocCount p (List.replicate n RemThread.start) = 0 := by
      refine List.countP_eq_zero.2 ?_
      intro a ha
      rw [List.eq_of_mem_replicate ha]
      simp
    simp [remInit, hz, Ne.symm hp]
  · simp [remInit] at hp
  · simp [remInit, List.mem_replicate] at hr
  · simp [remInit, List.mem_replicate] at hp

/-- C7: `remutex` returns the already-published pointer when the slot is
nonzero; when the slot is zero it allocates, initializes and publishes a
fresh `ReentrantMutex` by compare-and-swap, and a losing racer destroys its
own allocation and returns the published pointer, so that after any
interleaving of any number of racing threads exactly one backing lock
survives and every thread returned that one pointer; `RWLock::remutex` is
the same algorithm, and `destroy` is a no-op on a never-created lock and
otherwise destroys and frees the backing lock. -/
theorem Mutex.remutex_race_spec :
    (∀ s : LockState, s.lock ≠ 0 →
      Mutex.remutex s = { re := s.lock, state := s, trace := [] }) ∧
    (∀ s : LockState, s.lock = 0 →
      Mutex.remutex s =
        { re := s.fresh + 1,
          state :=
            { s with
              fresh := s.fresh + 1,
              alive := (s.fresh + 1) :: s.alive,
              lock := s.fresh + 1 },
          trace := [.reInit (s.fresh + 1)] }) ∧
    (∀ (n f : Nat) (cs : List Nat) (s : RemState),
      RemState.run (remInit n f) cs = some s →
      s.threads ≠ [] →
      (∀ t ∈ s.threads, t.isDone = true) →
      s.alive = [s.slot] ∧ s.slot ≠ 0 ∧ ∀ t ∈ s.threads, t = .done s.slot) ∧
    (∀ s : LockState, RWLock.remutex s = Mutex.remutex s) ∧
    (∀ s : LockState, s.lock = 0 → Mutex.destroy s = (s, [])) ∧
    (∀ s : LockState, s.lock ≠ 0 →
      Mutex.destroy s = ({ s with alive := s.alive.erase s.lock }, [.reDestroy s.lock])) := by
  refine ⟨fun s h => Mutex.remutex_of_ne s h, fun s h => ?_, ?_, fun s => rfl,
    fun s h => ?_, fun s h => ?_⟩
  · simp [Mutex.remutex, h]
  · intro n f cs s hrun hne hdone
    obtain ⟨h1, h2, h3, h4⟩ := RemInv.run cs (remInit_inv n f) hrun
    obtain ⟨t, ht⟩ := List.exists_mem_of_ne_nil s.threads hne
    obtain ⟨r0, rfl⟩ : ∃ r, t = RemThread.done r := by
      have := hdone t ht
      cases t <;> simp_all [RemThread.isDone]
    have hslot0 := h3 r0 ht
    have hac : ∀ p, remAllocCount p s.threads = 0 := by
      intro p
      refine List.countP_eq_zero.2 ?_
      intro a ha
      have := hdone a ha
      cases a <;> simp_all [RemThread.isDone]
    have hcount : ∀ p, p ≠ 0 → s.alive.count p = if s.slot = p then 1 else 0 := by
      intro p hp
      have := h1 p hp
      rw [hac] at this
      simpa using this
    have hmem : ∀ x ∈ s.alive, x = s.slot := by
      intro x hx
      have hcx := hcount x (h2 x hx)
      have hpos : 0 < s.alive.count x := List.count_pos_iff.2 hx
      by_cases hsx : s.slot = x
      · exact hsx.symm
      · rw [if_neg hsx] at hcx
        omega
    have hrep := List.eq_replicate_of_mem hmem
    have hlen : s.alive.length = 1 := by
      have hcs := hcount s.slot hslot0.2
      rw [if_pos rfl, hrep, List.count_replicate_self] at hcs
      exact hcs
    refine ⟨?_, hslot0.2, ?_⟩
    · rw [hrep, hlen, List.replicate_one]
    · intro t2 ht2
      have hd2 := hdone t2 ht2
      obtain ⟨r2, rfl⟩ : ∃ r, t2 = RemThread.done r := by
        cases t2 with
        | done r => exact ⟨r, rfl⟩
        | start => exact absurd hd2 (by simp [RemThread.isDone])
        | sawZero => exact absurd hd2 (by simp [RemThread.isDone])
        | allocated re => exact absurd hd2 (by simp [RemThread.isDone])
      rw [(h3 r2 ht2).1]
  · simp [Mutex.destroy, h]
  · cases hs : s.lock with
    | zero => exact absurd hs h
    | succ m => simp [Mutex.destroy, hs]

theorem Mutex.remutex_race_spec_witness :
    ({ slot := 11, alive := [11], fresh := 12,
       threads := [.done 11, .done 11] } : RemState).alive =
      [({ slot := 11, alive := [11], fresh := 12,
          threads := [.done 11, .done 11] } : RemState).slot] :=
  (Mutex.remutex_race_spec.2.2.1 2 10 [0, 0, 1, 1, 0, 1]
    { slot := 11, alive := [11], fresh := 12, threads := [.done 11, .done 11] }
    (by decide) (by decide) (by decide)).1

/-- C4: the registration assertion of `wait_timeout` (condvar.rs line 51) can
fire on a reachable interleaving.  In `cvTrace`, run from a fresh condvar with
three finite-timeout waiters and one `notify_one` caller: waiter 0 registers
and blocks; the notifier acquires the control token, adds the ONE bit (prior
`sleepersCount` is 1) and is preempted between its `fetch_add` and its
`SetEvent`; waiter 0 times out, observes `wakeupMode == ONE` and
`sleepersCount == 0`, so it resets the still-unset event, stores NONE and
releases the token; the notifier then signals the auto-reset event, leaving
it stale on an idle condvar; waiter 1 registers and is woken by the stale
event, so its subtraction of `1 + ONE` from a state word of 1 wraps the word;
waiter 2 then registers and its assertion sees nonzero mode bits: it ends at
the `failed` program point while waiter 0 has finished and waiter 1 is about
to release the token. -/
theorem Condvar.registration_assert_reachable :
    (CvSys.run cvInit cvTrace).map (fun s => s.waiters.map Waiter.pc) =
      some [.finished, .relTok, .failed] := by decide
